import Mathlib

/-!
# Verification of the termora plan-execution and safety subsystem

Shallow embedding of the relevant parts of the termora repository
(`termora/utils/helpers.py`, `termora/core/agent.py`, `termora/core/rollback.py`,
`termora/cli/quick_termora.py`) together with theorems settling the stated claims.

Python strings are modelled as `String` / `List Char`; Python's substring test
(`sub in s`) and `str.startswith` are given explicit executable definitions and
characterised by existential decompositions.  Fallible / exception-raising code
is modelled in `Except`.
-/

namespace Termora

/-! ## Python string primitives

`pyStartsWith p l` models Python's `l.startswith(p)` on character lists;
`pySubstr p l` models Python's containment test `p in l`. -/

def pyStartsWith : List Char → List Char → Bool
  | [], _ => true
  | _ :: _, [] => false
  | a :: ps, b :: l => a == b && pyStartsWith ps l

def pySubstr (p : List Char) : List Char → Bool
  | [] => pyStartsWith p []
  | b :: rest => pyStartsWith p (b :: rest) || pySubstr p rest

theorem pyStartsWith_iff (p l : List Char) :
    pyStartsWith p l = true ↔ ∃ t, l = p ++ t := by
  induction p generalizing l with
  | nil => simp [pyStartsWith]
  | cons a ps ih =>
    cases l with
    | nil => simp [pyStartsWith]
    | cons b t =>
      simp only [pyStartsWith, Bool.and_eq_true, beq_iff_eq, ih]
      constructor
      · rintro ⟨rfl, u, rfl⟩
        exact ⟨u, rfl⟩
      · rintro ⟨u, h⟩
        rw [List.cons_append] at h
        cases h
        exact ⟨rfl, u, rfl⟩

theorem pySubstr_iff (p l : List Char) :
    pySubstr p l = true ↔ ∃ s t, l = s ++ p ++ t := by
  induction l with
  | nil =>
    simp only [pySubstr, pyStartsWith_iff]
    constructor
    · rintro ⟨t, h⟩
      exact ⟨[], t, by simpa using h⟩
    · rintro ⟨s, t, h⟩
      exact ⟨t, by
        rcases List.append_eq_nil.mp (List.append_eq_nil.mp h.symm).1 with ⟨rfl, rfl⟩
        simpa using h⟩
  | cons b rest ih =>
    simp only [pySubstr, Bool.or_eq_true, pyStartsWith_iff, ih]
    constructor
    · rintro (⟨t, h⟩ | ⟨s, t, h⟩)
      · exact ⟨[], t, by simpa using h⟩
      · exact ⟨b :: s, t, by simp [h]⟩
    · rintro ⟨s, t, h⟩
      cases s with
      | nil => exact Or.inl ⟨t, by simpa using h⟩
      | cons c s' =>
        right
        rw [List.cons_append, List.cons_append] at h
        cases h
        exact ⟨s', t, rfl⟩

/-! ## `termora/utils/helpers.py` : `is_destructive_command` -/

/-- The fixed list of destructive verbs from `helpers.py` (`destructive_cmds`). -/
def destructive_cmds : List String :=
  ["rm", "rmdir", "mv", "dd", "mkfs", "fdisk", "format",
   "shutdown", "reboot", "del", "truncate", ">", "tee", "sed"]

/-- Embedding of `helpers.is_destructive_command`:
for each verb `cmd` it tests `f" {cmd} " in f" {command} "` or
`command.startswith(f"{cmd} ")`. -/
def is_destructive_command (command : String) : Bool :=
  destructive_cmds.any fun cmd =>
    pySubstr (' ' :: cmd.toList ++ [' ']) (' ' :: command.toList ++ [' ']) ||
    pyStartsWith (cmd.toList ++ [' ']) command.toList

/-- A verb occurs in the command as a standalone *space*-delimited token:
some occurrence is preceded by a space or the start of the string and followed
by a space or the end of the string. -/
def standaloneToken (cmd command : List Char) : Prop :=
  ∃ pre post, command = pre ++ cmd ++ post ∧
    (pre = [] ∨ ∃ p, pre = p ++ [' ']) ∧
    (post = [] ∨ ∃ q, post = ' ' :: q)

/-- The spec's wording verbatim: a standalone *whitespace*-delimited token
(any whitespace character can delimit, not just a space).  Used to compare the
spec's sentence with the code, which only treats `' '` as a delimiter. -/
def standaloneWsToken (cmd command : List Char) : Prop :=
  ∃ pre post, command = pre ++ cmd ++ post ∧
    (pre = [] ∨ ∃ p c, pre = p ++ [c] ∧ (c : Char).isWhitespace) ∧
    (post = [] ∨ ∃ q c, post = c :: q ∧ (c : Char).isWhitespace)

lemma concat_eq_concat {α : Type} {x y : List α} {a b : α}
    (h : x ++ [a] = y ++ [b]) : x = y ∧ a = b := by
  have := List.append_inj' h rfl
  simpa using this

/-- The space-wrapped substring test used by the source is exactly the
standalone-space-token predicate. -/
lemma pySubstr_wrap_iff (cmd command : List Char) :
    pySubstr (' ' :: cmd ++ [' ']) (' ' :: command ++ [' ']) = true ↔
      standaloneToken cmd command := by
  rw [pySubstr_iff]
  constructor
  · rintro ⟨s, t, h⟩
    cases s with
    | nil =>
      rcases t.eq_nil_or_concat with rfl | ⟨t₀, c, rfl⟩ <;>
        simp only [List.concat_eq_append, List.append_nil, List.nil_append,
          ← List.cons_append, ← List.append_assoc, List.cons.injEq] at h
      · obtain ⟨rfl, -⟩ := concat_eq_concat (List.cons.inj h).2
        exact ⟨[], [], by simp, Or.inl rfl, Or.inl rfl⟩
      · obtain ⟨h', -⟩ := concat_eq_concat (List.cons.inj h).2
        exact ⟨[], ' ' :: t₀, by simp [h'], Or.inl rfl, Or.inr ⟨t₀, rfl⟩⟩
    | cons a s₀ =>
      rcases t.eq_nil_or_concat with rfl | ⟨t₀, c, rfl⟩ <;>
        simp only [List.concat_eq_append, List.append_nil, List.cons_append,
          ← List.append_assoc, List.cons.injEq] at h
      · obtain ⟨rfl, h⟩ := h
        rw [show s₀ ++ (' ' :: (cmd ++ [' '])) = (s₀ ++ ' ' :: cmd) ++ [' '] by simp] at h
        obtain ⟨h', -⟩ := concat_eq_concat h
        exact ⟨s₀ ++ [' '], [], by simp [h'], Or.inr ⟨s₀, rfl⟩, Or.inl rfl⟩
      · obtain ⟨rfl, h⟩ := h
        rw [show s₀ ++ (' ' :: (cmd ++ [' '])) ++ t₀ ++ [c]
              = (s₀ ++ ' ' :: cmd ++ ' ' :: t₀) ++ [c] by simp] at h
        obtain ⟨h', -⟩ := concat_eq_concat h
        exact ⟨s₀ ++ [' '], ' ' :: t₀, by simp [h'], Or.inr ⟨s₀, rfl⟩, Or.inr ⟨t₀, rfl⟩⟩
  · rintro ⟨pre, post, rfl, hpre, hpost⟩
    rcases hpre with rfl | ⟨p, rfl⟩ <;> rcases hpost with rfl | ⟨q, rfl⟩
    · exact ⟨[], [], by simp⟩
    · exact ⟨[], q ++ [' '], by simp⟩
    · exact ⟨' ' :: p, [], by simp⟩
    · exact ⟨' ' :: p, q ++ [' '], by simp⟩

lemma pyStartsWith_standalone {cmd command : List Char}
    (h : pyStartsWith (cmd ++ [' ']) command = true) : standaloneToken cmd command := by
  obtain ⟨t, rfl⟩ := (pyStartsWith_iff _ _).mp h
  exact ⟨[], ' ' :: t, by simp, Or.inl rfl, Or.inr ⟨t, rfl⟩⟩

/-- Characterisation of the classifier: it fires exactly on standalone
space-delimited occurrences of one of the fixed verbs. -/
theorem is_destructive_command_iff (command : String) :
    is_destructive_command command = true ↔
      ∃ cmd ∈ destructive_cmds, standaloneToken cmd.toList command.toList := by
  simp only [is_destructive_command, List.any_eq_true, Bool.or_eq_true]
  constructor
  · rintro ⟨cmd, hmem, h | h⟩
    · exact ⟨cmd, hmem, (pySubstr_wrap_iff _ _).mp h⟩
    · exact ⟨cmd, hmem, pyStartsWith_standalone h⟩
  · rintro ⟨cmd, hmem, h⟩
    exact ⟨cmd, hmem, Or.inl ((pySubstr_wrap_iff _ _).mpr h)⟩

example : is_destructive_command " rm " = true := by decide
example : is_destructive_command "firmware update" = false := by decide
example : is_destructive_command "rm" = true := by decide
example : is_destructive_command "rm\tx" = false := by decide

/-! ## `termora/core/agent.py` : `ActionPlan`

An action is one of the dictionaries in `ActionPlan.actions`; the agent
produces dictionaries with keys `type`, `content`, `explanation` (and for
Python code possibly `dependencies`).  They are passed through `to_dict` /
`from_dict` unchanged, so they are modelled as a record. -/

structure Action where
  type : String
  content : String
  explanation : String := ""
  dependencies : List String := []
deriving DecidableEq, Repr

/-- Python truthiness of a list: `xs or []` yields `[]` when `xs` is empty or
`None`, and `xs` itself otherwise. -/
def pyListOrNil (xs : Option (List String)) : List String :=
  match xs with
  | none => []
  | some l => if l = [] then [] else l

structure ActionPlan where
  explanation : String
  actions : List Action
  requires_confirmation : Bool
  requires_backup : Bool
  backup_paths : List String
deriving DecidableEq, Repr

/-- `ActionPlan.__init__`: `backup_paths` defaults to `None` and is normalised
with `backup_paths or []`. -/
def ActionPlan.init (explanation : String) (actions : List Action)
    (requires_confirmation : Bool := true) (requires_backup : Bool := false)
    (backup_paths : Option (List String) := none) : ActionPlan :=
  { explanation := explanation, actions := actions,
    requires_confirmation := requires_confirmation,
    requires_backup := requires_backup,
    backup_paths := pyListOrNil backup_paths }

/-- The dictionary produced by `ActionPlan.to_dict` / consumed by
`ActionPlan.from_dict`.  Fields are `Option`s: `none` models an absent key, so
that `data.get(key, default)` is `Option.getD`.  (A key present with value
`None` takes the same default path in the modelled code.) -/
structure PlanDict where
  explanation : Option String := none
  actions : Option (List Action) := none
  requires_confirmation : Option Bool := none
  requires_backup : Option Bool := none
  backup_paths : Option (List String) := none
deriving DecidableEq, Repr

/-- Embedding of `ActionPlan.to_dict`. -/
def ActionPlan.to_dict (p : ActionPlan) : PlanDict :=
  { explanation := some p.explanation,
    actions := some p.actions,
    requires_confirmation := some p.requires_confirmation,
    requires_backup := some p.requires_backup,
    backup_paths := some p.backup_paths }

/-- Embedding of `ActionPlan.from_dict`: reads every key with `data.get` and
its default, then calls the constructor (`cls(...)`, i.e. `__init__`). -/
def ActionPlan.from_dict (data : PlanDict) : ActionPlan :=
  ActionPlan.init (data.explanation.getD "") (data.actions.getD [])
    (data.requires_confirmation.getD true) (data.requires_backup.getD false)
    (some (data.backup_paths.getD []))

/-! ## `execute_python_code`: the two implementations

Both run the interpreter as a subprocess on a freshly written temporary file.
The subprocess call is an external event, modelled by an oracle `RunOutcome`:
either the process runs to completion (with a return code, stdout, stderr), or
the call raises an exception (e.g. `OSError`, `MemoryError`).  Each embedding
returns the Python function's result together with a Boolean recording whether
a temporary artifact is still on disk after the call returns. -/

inductive RunOutcome where
  | completes (returncode : Int) (stdout stderr : String)
  | raises (msg : String)
deriving DecidableEq, Repr

structure PyExecResult where
  success : Bool
  output : String
  error : String
  return_code : Int
deriving DecidableEq, Repr

/-- Embedding of `TermoraAgent.execute_python_code` (`agent.py`).  The
temporary directory is opened with a `with tempfile.TemporaryDirectory()`
context manager, whose `__exit__` deletes it on normal return *and* during
exception propagation; the surrounding `try/except` then turns an exception
into an error dictionary.  Hence the leftover-artifact flag is `false` on
every path. -/
def agent_execute_python_code (_code : String) (run : RunOutcome) :
    PyExecResult × Bool :=
  match run with
  | .completes rc out err =>
      ({ success := rc == 0, output := out, error := err, return_code := rc }, false)
  | .raises msg =>
      ({ success := false, output := "", error := msg, return_code := 1 }, false)

/-- Embedding of the module-level `execute_python_code` in
`quick_termora.py`.  The temporary file is created with
`tempfile.NamedTemporaryFile(delete=False)` and deleted by an explicit
`os.unlink(temp_path)` placed *after* `subprocess.run`, with no
`finally`: when `subprocess.run` raises, control jumps to the `except`
handler, the `unlink` is skipped, and the file persists. -/
def quick_execute_python_code (_code : String) (run : RunOutcome) :
    (Bool × String × String) × Bool :=
  match run with
  | .completes rc out err => ((rc == 0, out.trim, err.trim), false)
  | .raises msg => ((false, "", msg), true)

/-! ## `termora/core/rollback.py` : the execution-history ledger

The ledger file `execution_history.json` is modelled by
`Option (Option (List HistoryEntry))`:
`none` — the file does not exist; `some none` — the file exists but holds
corrupted JSON (`json.load` raises `json.JSONDecodeError`); `some (some l)` —
the file parses to the JSON array `l`. -/

/-- One element of `execution_info["outputs"]`; `success` is `none` when the
dictionary has no `"success"` key, so `output.get("success", False)` is
`Option.getD · false`. -/
structure OutputInfo where
  success : Option Bool
deriving DecidableEq, Repr

/-- The `execution_info` dictionary passed to `save_execution_history`.
`commands` and `outputs` are read with `.get(key, [])` and `backup_path`
with `.get("backup_path")` (default `None`); the defaults are already folded
into the field types. -/
structure ExecutionInfo where
  commands : List String
  backup_path : Option String
  outputs : List OutputInfo
deriving DecidableEq, Repr

/-- One entry of the ledger JSON array. -/
structure HistoryEntry where
  timestamp : String
  commands : List String
  backup_path : Option String
  success : Bool
deriving DecidableEq, Repr

def LedgerFile : Type := Option (Option (List HistoryEntry))

/-- The entry appended by `save_execution_history`; `now` is the
`get_timestamp()` value.  The aggregate flag is
`all(output.get("success", False) for output in ...)`. -/
def mkHistoryEntry (now : String) (info : ExecutionInfo) : HistoryEntry :=
  { timestamp := now, commands := info.commands, backup_path := info.backup_path,
    success := info.outputs.all fun o => o.success.getD false }

/-- The `history` list loaded at the start of `save_execution_history`:
a missing file is skipped (`history = []`), corrupted JSON is caught
(`except json.JSONDecodeError: history = []`). -/
def loadHistory : LedgerFile → List HistoryEntry
  | none => []
  | some none => []
  | some (some l) => l

/-- Embedding of `RollbackManager.save_execution_history`: load, append the
new entry, keep the last 20 (`history[-20:]`), write back.  Returns the list
written to the file. -/
def save_execution_history (file : LedgerFile) (info : ExecutionInfo)
    (now : String) : List HistoryEntry :=
  let history := loadHistory file ++ [mkHistoryEntry now info]
  history.drop (history.length - 20)

/-- Embedding of `RollbackManager.get_last_execution`: `None` when the file
does not exist, when `json.load` raises, or when the array is empty
(`if not history`); otherwise the last entry (`history[-1]`). -/
def get_last_execution : LedgerFile → Option HistoryEntry
  | none => none
  | some none => none
  | some (some l) => l.getLast?

/-! ## `termora/core/rollback.py` : `list_backups`

The backup store is modelled as the list of `(filename, size in bytes)` pairs
in the backup directory, in directory-iteration order.  The source scans
`backup_dir.glob("backup_*.tar.gz")`, re-checks the prefix/suffix, slices the
timestamp out of the filename (`filename[7:-7]`), formats it — falling back to
`"Unknown"` when `datetime.strptime` raises `ValueError` — and finally sorts by
the formatted string, newest first (`sort(key=..., reverse=True)`, a stable
descending sort).

The entry's `path` field (`str(backup_file)`, i.e. the store directory joined
with `id`) is determined by `id` and is not repeated in the model; `size_mb`
(`round(size_bytes / 2**20, 2)`, a floating-point presentational conversion)
is modelled by keeping the byte count.  The source's generic `except` arm
(`rollback.py` line 76) is reached only when some per-entry operation raises —
e.g. `os.path.getsize` on a file deleted between the `glob` and the size
lookup; in the source that arm's own `self.console.print` (line 78) would
itself raise `AttributeError`, since `self.console` is the 1-tuple bound at
line 33 (see `consolePrint` below), so the whole `list_backups` call would
raise rather than skip the entry.  The model takes the directory contents as
a consistent snapshot, under which the per-entry operations are total and
that arm is never entered. -/

structure DateTime6 where
  year : Nat
  month : Nat
  day : Nat
  hour : Nat
  minute : Nat
  second : Nat
deriving DecidableEq, Repr

def isLeapYear (y : Nat) : Bool := y % 4 == 0 && (y % 100 != 0 || y % 400 == 0)

def daysInMonth (y m : Nat) : Nat :=
  if m = 2 then (if isLeapYear y then 29 else 28)
  else if m = 4 ∨ m = 6 ∨ m = 9 ∨ m = 11 then 30
  else 31

def digitVal (c : Char) : Nat := c.toNat - '0'.toNat

/-!
`datetime.strptime(s, "%Y%m%d_%H%M%S")` is implemented by `_strptime`: the
format is compiled to the regex `\d\d\d\d` (`%Y`), `1[0-2]|0[1-9]|[1-9]`
(`%m`), `3[01]|[12]\d|0[1-9]|[1-9]` (`%d`), a literal `_`,
`2[0-3]|[0-1]\d|\d` (`%H`), `[0-5]\d|\d` (`%M`), `6[0-1]|[0-5]\d|\d` (`%S`)
in sequence; `re.match` returns the first match of the engine's depth-first
backtracking search (alternatives tried left to right), `_strptime` raises
`ValueError` when there is no match or when the match does not consume the
whole string ("unconverted data remains"), and the `datetime` constructor
finally rejects year 0, a day out of range for the month, and the leap
seconds 60–61 that the `%S` pattern admits.  Each `*_alts` function below
lists one pattern's alternatives, in the engine's priority order, as
(parsed value, remaining input) pairs. -/

def year_alts (s : List Char) : List (Nat × List Char) :=
  match s with
  | a :: b :: c :: d :: rest =>
    if a.isDigit ∧ b.isDigit ∧ c.isDigit ∧ d.isDigit then
      [(((digitVal a * 10 + digitVal b) * 10 + digitVal c) * 10 + digitVal d, rest)]
    else []
  | _ => []

def month_alts (s : List Char) : List (Nat × List Char) :=
  (match s with
   | c1 :: c2 :: rest =>
     (if c1 = '1' ∧ '0' ≤ c2 ∧ c2 ≤ '2' then [(10 + digitVal c2, rest)] else []) ++
     (if c1 = '0' ∧ '1' ≤ c2 ∧ c2 ≤ '9' then [(digitVal c2, rest)] else [])
   | _ => []) ++
  (match s with
   | c1 :: rest => if '1' ≤ c1 ∧ c1 ≤ '9' then [(digitVal c1, rest)] else []
   | [] => [])

def day_alts (s : List Char) : List (Nat × List Char) :=
  (match s with
   | c1 :: c2 :: rest =>
     (if c1 = '3' ∧ ('0' ≤ c2 ∧ c2 ≤ '1') then [(30 + digitVal c2, rest)] else []) ++
     (if ('1' ≤ c1 ∧ c1 ≤ '2') ∧ c2.isDigit then
       [(digitVal c1 * 10 + digitVal c2, rest)] else []) ++
     (if c1 = '0' ∧ '1' ≤ c2 ∧ c2 ≤ '9' then [(digitVal c2, rest)] else [])
   | _ => []) ++
  (match s with
   | c1 :: rest => if '1' ≤ c1 ∧ c1 ≤ '9' then [(digitVal c1, rest)] else []
   | [] => [])

def hour_alts (s : List Char) : List (Nat × List Char) :=
  (match s with
   | c1 :: c2 :: rest =>
     (if c1 = '2' ∧ ('0' ≤ c2 ∧ c2 ≤ '3') then [(20 + digitVal c2, rest)] else []) ++
     (if ('0' ≤ c1 ∧ c1 ≤ '1') ∧ c2.isDigit then
       [(digitVal c1 * 10 + digitVal c2, rest)] else [])
   | _ => []) ++
  (match s with
   | c1 :: rest => if c1.isDigit then [(digitVal c1, rest)] else []
   | [] => [])

def minute_alts (s : List Char) : List (Nat × List Char) :=
  (match s with
   | c1 :: c2 :: rest =>
     if ('0' ≤ c1 ∧ c1 ≤ '5') ∧ c2.isDigit then
       [(digitVal c1 * 10 + digitVal c2, rest)] else []
   | _ => []) ++
  (match s with
   | c1 :: rest => if c1.isDigit then [(digitVal c1, rest)] else []
   | [] => [])

def second_alts (s : List Char) : List (Nat × List Char) :=
  (match s with
   | c1 :: c2 :: rest =>
     (if c1 = '6' ∧ ('0' ≤ c2 ∧ c2 ≤ '1') then [(60 + digitVal c2, rest)] else []) ++
     (if ('0' ≤ c1 ∧ c1 ≤ '5') ∧ c2.isDigit then
       [(digitVal c1 * 10 + digitVal c2, rest)] else [])
   | _ => []) ++
  (match s with
   | c1 :: rest => if c1.isDigit then [(digitVal c1, rest)] else []
   | [] => [])

def underscore_alts (s : List Char) : List (List Char) :=
  match s with
  | '_' :: rest => [rest]
  | _ => []

/-- All complete matches of the compiled pattern for `"%Y%m%d_%H%M%S"`,
enumerated depth-first in alternation-priority order — exactly the order in
which the regex engine's backtracking search visits them, so the head of
this list is the match `re.match` returns. -/
def strptime_matches (s : List Char) : List (DateTime6 × List Char) :=
  (year_alts s).flatMap fun yr =>
  (month_alts yr.2).flatMap fun mo =>
  (day_alts mo.2).flatMap fun d =>
  (underscore_alts d.2).flatMap fun s4 =>
  (hour_alts s4).flatMap fun h =>
  (minute_alts h.2).flatMap fun mi =>
  (second_alts mi.2).map fun se =>
    (⟨yr.1, mo.1, d.1, h.1, mi.1, se.1⟩, se.2)

/-- Model of `datetime.strptime(s, "%Y%m%d_%H%M%S")`: `none` is a
`ValueError`.  `_strptime` takes the regex engine's first match and raises
when there is none or when it does not consume the whole string; the
`datetime` constructor then rejects year 0, a day out of range for the
month, and seconds 60–61.  (The remaining regex-level bounds — month 1–12,
day 1–31, hour 0–23, minute 0–59 — are already enforced by the alternative
patterns.  Non-ASCII decimal digits, which Python's `\d` would also accept
before `int()` converts them, are outside the model.) -/
def parse_timestamp (s : List Char) : Option DateTime6 :=
  match strptime_matches s with
  | [] => none
  | (dt, rest) :: _ =>
    if rest = [] ∧ 1 ≤ dt.year ∧ dt.day ≤ daysInMonth dt.year dt.month ∧
        dt.second ≤ 59 then
      some dt
    else none

def pad2 (n : Nat) : String := if n < 10 then "0" ++ toString n else toString n

def pad4 (n : Nat) : String :=
  if n < 10 then "000" ++ toString n
  else if n < 100 then "00" ++ toString n
  else if n < 1000 then "0" ++ toString n
  else toString n

/-- `timestamp.strftime("%Y-%m-%d %H:%M:%S")`. -/
def formatDateTime (dt : DateTime6) : String :=
  pad4 dt.year ++ "-" ++ pad2 dt.month ++ "-" ++ pad2 dt.day ++ " " ++
    pad2 dt.hour ++ ":" ++ pad2 dt.minute ++ ":" ++ pad2 dt.second

/-- `filename.startswith("backup_") and filename.endswith(".tar.gz")` —
also exactly the set of names matched by the glob `backup_*.tar.gz`. -/
def matchesBackupName (fn : String) : Bool :=
  pyStartsWith "backup_".toList fn.toList &&
  pyStartsWith ".tar.gz".toList.reverse fn.toList.reverse

/-- `timestamp_str = filename[7:-7]`. -/
def tsSlice (fn : String) : List Char :=
  (fn.toList.drop 7).take (fn.toList.length - 14)

/-- The `timestamp` field of a listed backup: the parsed timestamp formatted
with `strftime`, or `"Unknown"` when `strptime` raises `ValueError`. -/
def formattedTime (fn : String) : String :=
  match parse_timestamp (tsSlice fn) with
  | some dt => formatDateTime dt
  | none => "Unknown"

example : formattedTime "backup_20230101_120000.tar.gz" = "2023-01-01 12:00:00" := by decide
example : formattedTime "backup_2023101_120000.tar.gz" = "2023-10-01 12:00:00" := by decide
example : formattedTime "backup_202311_120000.tar.gz" = "2023-01-01 12:00:00" := by decide
example : formattedTime "backup_2023111_120000.tar.gz" = "2023-11-01 12:00:00" := by decide
example : formattedTime "backup_20240229_120000.tar.gz" = "2024-02-29 12:00:00" := by decide
example : formattedTime "backup_20230229_120000.tar.gz" = "Unknown" := by decide
example : formattedTime "backup_20230101_120061.tar.gz" = "Unknown" := by decide
example : formattedTime "backup_20230101_1200001.tar.gz" = "Unknown" := by decide

structure BackupInfo where
  id : String
  timestamp : String
  size_bytes : Nat
deriving DecidableEq, Repr

def mkBackupInfo (f : String × Nat) : BackupInfo :=
  { id := f.1, timestamp := formattedTime f.1, size_bytes := f.2 }

/-- Embedding of `RollbackManager.list_backups` over the directory contents
`files` (filename, byte size).  `backups.sort(key=lambda x: x["timestamp"],
reverse=True)` is a stable descending sort by the formatted timestamp
string. -/
def list_backups (files : List (String × Nat)) : List BackupInfo :=
  let backups := (files.filter fun f => matchesBackupName f.1).map mkBackupInfo
  backups.mergeSort fun a b => decide (b.timestamp ≤ a.timestamp)

/-! ## `termora/core/rollback.py` : restore and rollback, with exceptions

`RollbackManager.__init__` (line 33) executes `self.console = Console(),` —
note the trailing comma: the attribute is bound to a **1-tuple**
`(Console(),)`, not to a `Console`.  A tuple has no `print` attribute, so
every subsequent `self.console.print(...)` in this class raises
`AttributeError`.  The methods below are therefore embedded in
`Except PyError`, with `consolePrint` as the (always-raising) effect.

Filesystem interaction is abstracted by oracles: `tar` is the outcome of
opening/extracting the archive, `copies` the outcomes of the individual
`shutil.copy2` calls over the extracted regular files. -/

inductive PyError where
  | attributeError
deriving DecidableEq, Repr

/-- `self.console.print(...)` where `self.console` is the 1-tuple
`(Console(),)`: raises `AttributeError` ("'tuple' object has no attribute
'print'"). -/
def consolePrint (_msg : String) : Except PyError Unit :=
  Except.error PyError.attributeError

/-- Embedding of `RollbackManager._restore_from_backup`.  The `try` body
prints, extracts, prints, copies each file (updating a progress bar), prints
and returns `True`; the `except Exception` arm prints the error and returns
`False` — but that arm's own `console.print` can itself raise. -/
def restore_from_backup (tar : Except PyError Unit)
    (copies : List (Except PyError Unit)) (_backup_path : String) :
    Except PyError Bool :=
  let body : Except PyError Bool := do
    consolePrint "Extracting backup..."
    tar
    consolePrint "Restoring files..."
    copies.forM id
    consolePrint "Restoration complete."
    pure true
  match body with
  | Except.ok v => Except.ok v
  | Except.error _ => do
      consolePrint "Error during rollback"
      pure false

/-- Embedding of `RollbackManager.rollback_last`.  `if not last_execution`
covers the `None` result; `if not backup_path or not os.path.exists(...)`
covers a missing/`None`/empty `backup_path` and a missing archive file
(`archivePresent`). -/
def rollback_last (ledger : LedgerFile) (archivePresent : String → Bool)
    (tar : Except PyError Unit) (copies : List (Except PyError Unit)) :
    Except PyError Bool :=
  match get_last_execution ledger with
  | none => do
      consolePrint "No previous execution found to rollback."
      pure false
  | some entry =>
    match entry.backup_path with
    | none => do
        consolePrint "Backup file not found for the last execution."
        pure false
    | some p =>
      if p = "" ∨ archivePresent p = false then do
        consolePrint "Backup file not found for the last execution."
        pure false
      else do
        consolePrint "Rolling back last operation using backup."
        let result ← restore_from_backup tar copies p
        if result then consolePrint "Rollback completed successfully."
        else consolePrint "Rollback failed."
        pure result

/-- Embedding of `RollbackManager.rollback_specific`: validates that
`backup_dir / backup_id` exists (`archivePresent`), then restores. -/
def rollback_specific (backup_id : String) (archivePresent : Bool)
    (tar : Except PyError Unit) (copies : List (Except PyError Unit)) :
    Except PyError Bool :=
  if archivePresent = false then do
    consolePrint "Backup file not found."
    pure false
  else do
    consolePrint "Rolling back using backup."
    let result ← restore_from_backup tar copies backup_id
    if result then consolePrint "Rollback completed successfully."
    else consolePrint "Rollback failed."
    pure result

/-! ## The Plan Executor (spec §4.4) -/

structure ActionOutput where
  success : Bool
  stdout : String
  stderr : String
  return_code : Int
deriving DecidableEq, Repr

structure ExecutionResult where
  executed : Bool
  reason : Option String
  outputs : List ActionOutput
  backup_id : Option String
deriving DecidableEq, Repr

/-- Modelled from the spec: the executor's collaborators and configuration.
The executor module (`termora/core/executor.py`, class `CommandExecutor`) is
not under `src/` — only its tests and call sites are — so the execution
environment is modelled from spec §4.4: `dryRun` is the non-interactive
dry-run configuration, `userConfirms` the user-confirmation channel,
`create_backup` the Backup Archiver (§4.3: returns the new archive's id, or
fails with an I/O error message), `inferPaths` the Backup Path Inferencer
(§4.2), and `runAction` the per-action execution described in §4.4 step 4
(subprocess / interpreted code, preview sub-step, fallback), abstracted to
its recorded per-action result. -/
structure ExecEnv where
  dryRun : Bool
  userConfirms : Bool
  create_backup : List String → Except String String
  inferPaths : List String → List String
  runAction : Action → ActionOutput

/-- Modelled from the spec (§4.4 step 3a): the backup targets are
`plan.backup_paths` if non-empty, else the Path Inferencer applied to the
shell-command actions' `content`. -/
def resolveBackupPaths (plan : ActionPlan) (env : ExecEnv) : List String :=
  if plan.backup_paths ≠ [] then plan.backup_paths
  else env.inferPaths
    ((plan.actions.filter fun a => a.type == "shell_command").map Action.content)

/-- Modelled from the spec: `execute_plan` (§4.4), absent from `src/`
(`termora/core/executor.py` holds only the missing `CommandExecutor`).
States `Pending → (Confirming) → (BackingUp) → Running → Completed | Cancelled`:
confirmation (denied automatically in dry-run mode, reason `"dry-run mode"`;
declined by the user, reason `"cancelled by user"`; neither path produces
outputs), then — only if confirmed — backup when `plan.requires_backup`
(aborting the whole run when backup creation fails, §4.4 step 3c), then
sequential execution of every action in plan order with one output per
action.  The second component of the result lists the actions that were
actually executed. -/
def execute_plan (plan : ActionPlan) (env : ExecEnv) :
    ExecutionResult × List Action :=
  if plan.requires_confirmation && env.dryRun then
    ({ executed := false, reason := some "dry-run mode", outputs := [],
       backup_id := none }, [])
  else if plan.requires_confirmation && !env.userConfirms then
    ({ executed := false, reason := some "cancelled by user", outputs := [],
       backup_id := none }, [])
  else if plan.requires_backup then
    match env.create_backup (resolveBackupPaths plan env) with
    | Except.error msg =>
        ({ executed := false, reason := some ("backup failed: " ++ msg),
           outputs := [], backup_id := none }, [])
    | Except.ok bid =>
        ({ executed := true, reason := none,
           outputs := plan.actions.map env.runAction, backup_id := some bid },
         plan.actions)
  else
    ({ executed := true, reason := none,
       outputs := plan.actions.map env.runAction, backup_id := none },
     plan.actions)

/-! ## Claims -/

/-- C1: for every plan with `requires_backup = true` that reaches the backup
step (confirmation granted, not dry-run) and whose backup creation fails,
`execute_plan` returns `executed = false`, a reason identifying the backup
failure, and an empty `outputs` sequence, and no action of the plan is
executed. -/
theorem claim_C1_backup_failure_aborts (plan : ActionPlan) (env : ExecEnv)
    (msg : String) (hb : plan.requires_backup = true)
    (hc : plan.requires_confirmation = true →
      env.dryRun = false ∧ env.userConfirms = true)
    (hfail : env.create_backup (resolveBackupPaths plan env) = Except.error msg) :
    execute_plan plan env =
      ({ executed := false, reason := some ("backup failed: " ++ msg),
         outputs := [], backup_id := none }, []) := by
  have h1 : (plan.requires_confirmation && env.dryRun) = false := by
    cases hrc : plan.requires_confirmation
    · simp
    · simp [(hc hrc).1]
  have h2 : (plan.requires_confirmation && !env.userConfirms) = false := by
    cases hrc : plan.requires_confirmation
    · simp
    · simp [(hc hrc).2]
  simp [execute_plan, h1, h2, hb, hfail]

def samplePlan : ActionPlan :=
  { explanation := "remove scratch directory",
    actions := [{ type := "shell_command", content := "rm -rf /tmp/scratch" }],
    requires_confirmation := false,
    requires_backup := true,
    backup_paths := ["/tmp/scratch"] }

def sampleEnv : ExecEnv :=
  { dryRun := false,
    userConfirms := true,
    create_backup := fun _ => Except.error "backup directory not writable",
    inferPaths := fun _ => [],
    runAction := fun _ => { success := true, stdout := "", stderr := "", return_code := 0 } }

/-- Witness for C1 at a concrete plan and environment. -/
theorem claim_C1_witness :
    execute_plan samplePlan sampleEnv =
      ({ executed := false,
         reason := some ("backup failed: " ++ "backup directory not writable"),
         outputs := [], backup_id := none }, []) :=
  claim_C1_backup_failure_aborts samplePlan sampleEnv "backup directory not writable"
    rfl (fun h => by simp [samplePlan] at h) rfl

/-- C2 (divergence exhibited): `_restore_from_backup` never returns a
Boolean — for every archive path and every outcome of the extraction and of
the individual file copies it raises `AttributeError`, because
`self.console` is the 1-tuple `(Console(),)` bound at `rollback.py` line 33:
the first `self.console.print` in the `try` body raises, and the
`except Exception` handler's own `self.console.print` raises again,
propagating past the Rollback Manager boundary. -/
theorem claim_C2_restore_always_raises (tar : Except PyError Unit)
    (copies : List (Except PyError Unit)) (_backup_path : String) :
    restore_from_backup tar copies backup_path =
      Except.error PyError.attributeError := rfl

/-- C4 (divergence exhibited): `rollback_last` and `rollback_specific` never
fail gracefully — whatever the ledger state, archive existence, and restore
outcomes, every branch (no previous execution, no associated backup, missing
archive, attempted restore) first calls `self.console.print`, which raises
`AttributeError` because `self.console` is a 1-tuple, so the call raises
instead of returning `False`. -/
theorem claim_C4_rollback_always_raises :
    (∀ (ledger : LedgerFile) (archivePresent : String → Bool)
      (tar : Except PyError Unit) (copies : List (Except PyError Unit)),
      rollback_last ledger archivePresent tar copies =
        Except.error PyError.attributeError) ∧
    (∀ (backup_id : String) (archivePresent : Bool)
      (tar : Except PyError Unit) (copies : List (Except PyError Unit)),
      rollback_specific backup_id archivePresent tar copies =
        Except.error PyError.attributeError) := by
  constructor
  · intro ledger archivePresent tar copies
    rcases hg : get_last_execution ledger with _ | entry
    · simp only [rollback_last, hg]
      rfl
    · simp only [rollback_last, hg]
      rcases hb : entry.backup_path with _ | p
      · simp only [hb]
        rfl
      · simp only [hb]
        split <;> rfl
  · intro backup_id archivePresent tar copies
    unfold rollback_specific
    split <;> rfl

/-- C3 counterexample: in `"rm\tx"` the verb `rm` is a standalone
whitespace-delimited token at the start of the command (delimited by a tab),
yet `is_destructive_command` returns `false`: the code only treats the space
character as a delimiter. -/
theorem claim_C3_counterexample :
    is_destructive_command "rm\tx" = false ∧
    ∃ cmd ∈ destructive_cmds, standaloneWsToken cmd.toList "rm\tx".toList := by
  refine ⟨by decide, "rm", by decide, [], ['\t', 'x'], by decide,
    Or.inl rfl, Or.inr ⟨['x'], '\t', rfl, by decide⟩⟩

/-- C3 amended: `is_destructive_command c` returns true exactly when one of
the fixed destructive verbs occurs in `c` as a standalone *space*-delimited
token — preceded by a space or the start of the command and followed by a
space or the end — never when a verb occurs only as a substring of a longer
word; in particular it is true on `" rm "`, false on `"firmware update"`,
and true on `"rm"` alone. -/
theorem claim_C3_amended :
    (∀ command : String, is_destructive_command command = true ↔
      ∃ cmd ∈ destructive_cmds, standaloneToken cmd.toList command.toList) ∧
    is_destructive_command " rm " = true ∧
    is_destructive_command "firmware update" = false ∧
    is_destructive_command "rm" = true :=
  ⟨is_destructive_command_iff, by decide, by decide, by decide⟩

/-- C5 counterexample: a backup file whose filename timestamp fails to parse
is *not* omitted from the result — `list_backups` returns it with timestamp
`"Unknown"`. -/
theorem claim_C5_counterexample :
    list_backups [("backup_notatimestamp.tar.gz", 123)] =
      [{ id := "backup_notatimestamp.tar.gz", timestamp := "Unknown",
         size_bytes := 123 }] := by
  unfold list_backups
  rw [show ([("backup_notatimestamp.tar.gz", 123)].filter
        fun f => matchesBackupName f.1).map mkBackupInfo =
      [{ id := "backup_notatimestamp.tar.gz", timestamp := "Unknown",
         size_bytes := 123 }] from by decide]
  rw [List.mergeSort_singleton]

/-- C5 amended: `list_backups` returns one entry per file matching
`backup_*.tar.gz` (a permutation of the processed directory entries — nothing
is dropped), sorted newest-first by the formatted timestamp string, and every
entry whose filename timestamp fails to parse is *included* with timestamp
`"Unknown"` (which sorts before all parsed timestamps) rather than skipped. -/
theorem claim_C5_amended (files : List (String × Nat)) :
    List.Perm (list_backups files)
      ((files.filter fun f => matchesBackupName f.1).map mkBackupInfo) ∧
    (list_backups files).Pairwise (fun a b => b.timestamp ≤ a.timestamp) ∧
    ∀ f ∈ files, matchesBackupName f.1 = true →
      parse_timestamp (tsSlice f.1) = none →
      ({ id := f.1, timestamp := "Unknown", size_bytes := f.2 } : BackupInfo) ∈
        list_backups files := by
  refine ⟨List.mergeSort_perm _ _, ?_, ?_⟩
  · have h := @List.sorted_mergeSort BackupInfo
      (fun a b : BackupInfo => decide (b.timestamp ≤ a.timestamp))
      (by intro a b c h1 h2; simp only [decide_eq_true_eq] at *; exact le_trans h2 h1)
      (by intro a b; simp [le_total])
      ((files.filter fun f => matchesBackupName f.1).map mkBackupInfo)
    exact h.imp fun hab => of_decide_eq_true hab
  · intro f hf hglob hparse
    unfold list_backups
    rw [List.mem_mergeSort, List.mem_map]
    refine ⟨f, List.mem_filter.mpr ⟨hf, hglob⟩, ?_⟩
    unfold mkBackupInfo formattedTime
    rw [hparse]

/-- Witness for C5 at a concrete store: the unparseable entry is in the
returned list. -/
theorem claim_C5_witness :
    ({ id := "backup_notatimestamp.tar.gz", timestamp := "Unknown",
       size_bytes := 5 } : BackupInfo) ∈
      list_backups [("backup_notatimestamp.tar.gz", 5)] :=
  (claim_C5_amended [("backup_notatimestamp.tar.gz", 5)]).2.2
    ("backup_notatimestamp.tar.gz", 5) (by decide) (by decide) (by decide)

/-- C6: after `save_execution_history`, the ledger holds at most 20 entries;
the new entry is the last element; the written list is a suffix of the old
entries followed by the new one (existing entries are never mutated, only the
oldest dropped); and the new entry's aggregate `success` flag is true only if
every per-action output in the given execution info reported success. -/
theorem claim_C6_save_history (file : LedgerFile) (info : ExecutionInfo)
    (now : String) :
    (save_execution_history file info now).length ≤ 20 ∧
    (save_execution_history file info now).getLast? =
      some (mkHistoryEntry now info) ∧
    (∃ k, save_execution_history file info now =
      (loadHistory file ++ [mkHistoryEntry now info]).drop k) ∧
    ((mkHistoryEntry now info).success = true →
      ∀ o ∈ info.outputs, o.success = some true) := by
  refine ⟨?_, ?_, ⟨_, rfl⟩, ?_⟩
  · unfold save_execution_history
    rw [List.length_drop]
    omega
  · unfold save_execution_history
    rw [List.drop_append_of_le_length
      (by simp only [List.length_append, List.length_cons, List.length_nil]; omega),
      List.getLast?_concat]
  · intro h o ho
    unfold mkHistoryEntry at h
    simp only [List.all_eq_true] at h
    have := h o ho
    cases hs : o.success with
    | none => rw [hs] at this; simp at this
    | some b => rw [hs] at this; simpa using this

def sampleInfo : ExecutionInfo :=
  { commands := ["rm -rf /tmp/scratch"],
    backup_path := some "/root/.termora/backups/backup_20230101_120000.tar.gz",
    outputs := [{ success := some true }] }

/-- Witness for C6 at a concrete ledger state and execution info, with the
only-if direction of the aggregate flag discharged at a concrete output. -/
theorem claim_C6_witness :
    (save_execution_history (some (some [])) sampleInfo "2023-01-01 12:00:00").length ≤ 20 ∧
    ({ success := some true } : OutputInfo).success = some true :=
  ⟨(claim_C6_save_history (some (some [])) sampleInfo "2023-01-01 12:00:00").1,
   (claim_C6_save_history (some (some [])) sampleInfo "2023-01-01 12:00:00").2.2.2
     (by decide) { success := some true } (by simp [sampleInfo])⟩

/-- C7: `get_last_execution` reads the most recent ledger entry — immediately
after `save_execution_history` it returns exactly the entry just appended,
and it returns `none` when no ledger file exists or the ledger is empty. -/
theorem claim_C7_get_last_execution :
    (∀ (file : LedgerFile) (info : ExecutionInfo) (now : String),
      get_last_execution (some (some (save_execution_history file info now))) =
        some (mkHistoryEntry now info)) ∧
    get_last_execution (none : LedgerFile) = none ∧
    get_last_execution (some (some ([] : List HistoryEntry))) = none := by
  refine ⟨?_, rfl, rfl⟩
  intro file info now
  show (save_execution_history file info now).getLast? = _
  unfold save_execution_history
  rw [List.drop_append_of_le_length
    (by simp only [List.length_append, List.length_cons, List.length_nil]; omega),
    List.getLast?_concat]

/-- C9: with a corrupted (unparseable JSON) ledger file, the parse error is
caught rather than propagated: `save_execution_history` treats the history as
empty and writes a valid ledger holding only the new entry, and
`get_last_execution` returns `none`. -/
theorem claim_C9_corrupted_ledger :
    (∀ (info : ExecutionInfo) (now : String),
      save_execution_history (some none) info now = [mkHistoryEntry now info]) ∧
    get_last_execution (some (none : Option (List HistoryEntry))) = none :=
  ⟨fun _ _ => rfl, rfl⟩

/-- C10: `ActionPlan.from_dict` after `ActionPlan.to_dict` is the identity on
plan contents — explanation, actions, requires_confirmation, requires_backup
and backup_paths are all preserved. -/
theorem claim_C10_roundtrip (p : ActionPlan) :
    ActionPlan.from_dict (ActionPlan.to_dict p) = p := by
  cases p with
  | mk e a rc rb bp =>
    simp only [ActionPlan.from_dict, ActionPlan.to_dict, ActionPlan.init,
      Option.getD_some, pyListOrNil, ActionPlan.mk.injEq]
    split <;> simp_all

/-- C8 counterexample: in the `quick_termora` implementation, when
`subprocess.run` raises, the `except` handler returns without reaching
`os.unlink`, so the temporary file (created with `delete=False`) persists
after the call returns. -/
theorem claim_C8_counterexample :
    (quick_execute_python_code "print(1)" (RunOutcome.raises "oserror")).2 =
      true := rfl

/-- C8 amended: the agent's `execute_python_code` (a
`tempfile.TemporaryDirectory` context manager) removes its temporary artifact
on every exit path — success, failure, or exception — but the quick CLI's
`execute_python_code` removes its temporary file exactly on the
non-exceptional paths: the file persists precisely when the execution step
raises. -/
theorem claim_C8_amended :
    (∀ (code : String) (run : RunOutcome),
      (agent_execute_python_code code run).2 = false) ∧
    (∀ (code : String) (run : RunOutcome),
      (quick_execute_python_code code run).2 = true ↔
        ∃ msg, run = RunOutcome.raises msg) := by
  constructor
  · intro code run
    cases run <;> rfl
  · intro code run
    cases run with
    | completes rc out err => simp [quick_execute_python_code]
    | raises msg => simp [quick_execute_python_code]

end Termora
